import Mathlib

/-!
Shallow embedding of the Bunny-Unispace "Garage" workflow core:
the provider adapter (`src/services/aiService.ts`) and the stage
sequencer (the `GarageWorkflow` component).  JavaScript-specific
semantics (falsy strings, `undefined + undefined = NaN`, `||`
defaulting) are modelled explicitly.
-/

/-- JS runtime numbers as they occur in the adapter's `tokens` field:
`undef` models the value `undefined` (an absent optional field), `nan`
models `NaN`, `num n` an actual number. -/
inductive JsNum where
  | undef
  | nan
  | num (n : Int)
deriving DecidableEq, Repr

/-- JS `+` on two possibly-undefined numeric values: any operand that is
`undefined` or `NaN` makes the result `NaN`. -/
def jsAdd : JsNum → JsNum → JsNum
  | JsNum.num a, JsNum.num b => JsNum.num (a + b)
  | _, _ => JsNum.nan

/-- JS `x || d` for a possibly-absent string `x`: the default `d` is
taken when `x` is `undefined` or the empty string (both falsy). -/
def jsOr (o : Option String) (d : String) : String :=
  match o with
  | none => d
  | some s => if s = "" then d else s

/-- JS truthiness of a possibly-absent string: `undefined` and `""` are
falsy, every other string is truthy. -/
def jsTruthyStr : Option String → Bool
  | none => false
  | some s => s ≠ ""

/-- JS `String.prototype.trim`: drop whitespace from both ends.
(Executable model; `String.trim` from core does not reduce in the
kernel.) -/
def jsTrim (s : String) : String :=
  String.mk (((s.data.dropWhile Char.isWhitespace).reverse.dropWhile Char.isWhitespace).reverse)

/-! ## Provider adapter (`aiService.ts`)

Each provider's response payload is modelled by a structure whose
optional fields mirror the optional-chaining (`?.`) accesses the code
performs.  The `callX` functions below are the pure normalisation part
of the corresponding `async callX` methods of `AIServiceManager`: the
mapping from a successful HTTP response body to the `AIResponse`
result.  (The network transport and the `try/catch` around it are the
effectful part, out of scope of the normalisation claims.) -/

/-- Normalised result type (`AIResponse` in `aiService.ts`).  The
`timestamp: Date` field is omitted (wall-clock time).  `tokens` is a
`JsNum` because the code can produce `undefined` and `NaN` there. -/
structure AIResponse where
  content : String
  service : String
  tokens : JsNum
  model : Option String
deriving DecidableEq, Repr

structure OpenAIMessage where
  content : Option String
deriving DecidableEq, Repr

structure OpenAIChoice where
  message : Option OpenAIMessage
deriving DecidableEq, Repr

structure OpenAIUsage where
  total_tokens : JsNum
deriving DecidableEq, Repr

/-- Response body shape consumed by `callOpenAI` / `callGroq`
(`choices[0]?.message?.content`, `usage?.total_tokens`, `model`). -/
structure OpenAIData where
  choices : List OpenAIChoice
  usage : Option OpenAIUsage
  model : Option String
deriving DecidableEq, Repr

/-- `response.data.choices[0]?.message?.content` as an optional value. -/
def openAIText (d : OpenAIData) : Option String :=
  (d.choices.head?.bind (fun c => c.message)).bind (fun m => m.content)

/-- Pure normalisation part of `AIServiceManager.callOpenAI`. -/
def callOpenAI (d : OpenAIData) : AIResponse :=
  { content := jsOr (openAIText d) "No response"
    service := "openai"
    tokens := match d.usage with
      | none => JsNum.undef
      | some u => u.total_tokens
    model := d.model }

/-- Pure normalisation part of `AIServiceManager.callGroq` (same
response shape as OpenAI). -/
def callGroq (d : OpenAIData) : AIResponse :=
  { content := jsOr (openAIText d) "No response"
    service := "groq"
    tokens := match d.usage with
      | none => JsNum.undef
      | some u => u.total_tokens
    model := d.model }

structure AnthropicContentItem where
  text : Option String
deriving DecidableEq, Repr

structure AnthropicUsage where
  input_tokens : JsNum
  output_tokens : JsNum
deriving DecidableEq, Repr

/-- Response body shape consumed by `callAnthropic`
(`content[0]?.text`, `usage?.input_tokens`, `usage?.output_tokens`). -/
structure AnthropicData where
  content : List AnthropicContentItem
  usage : Option AnthropicUsage
  model : Option String
deriving DecidableEq, Repr

/-- `response.data.content[0]?.text` as an optional value. -/
def anthropicText (d : AnthropicData) : Option String :=
  d.content.head?.bind (fun c => c.text)

/-- `response.data.usage?.input_tokens` (JS: `undefined` when `usage`
is absent). -/
def anthropicInputTokens (d : AnthropicData) : JsNum :=
  match d.usage with
  | none => JsNum.undef
  | some u => u.input_tokens

/-- `response.data.usage?.output_tokens`. -/
def anthropicOutputTokens (d : AnthropicData) : JsNum :=
  match d.usage with
  | none => JsNum.undef
  | some u => u.output_tokens

/-- Pure normalisation part of `AIServiceManager.callAnthropic`.  Note
`tokens` is the JS sum `usage?.input_tokens + usage?.output_tokens`,
which is `NaN` whenever `usage` is absent. -/
def callAnthropic (d : AnthropicData) : AIResponse :=
  { content := jsOr (anthropicText d) "No response"
    service := "anthropic"
    tokens := jsAdd (anthropicInputTokens d) (anthropicOutputTokens d)
    model := d.model }

structure GooglePart where
  text : Option String
deriving DecidableEq, Repr

structure GoogleContent where
  parts : Option (List GooglePart)
deriving DecidableEq, Repr

structure GoogleCandidate where
  content : Option GoogleContent
deriving DecidableEq, Repr

structure GoogleUsageMetadata where
  totalTokenCount : JsNum
deriving DecidableEq, Repr

/-- Response body shape consumed by `callGoogle`
(`candidates?.[0]?.content?.parts?.[0]?.text`,
`usageMetadata?.totalTokenCount`). -/
structure GoogleData where
  candidates : Option (List GoogleCandidate)
  usageMetadata : Option GoogleUsageMetadata
deriving DecidableEq, Repr

/-- `response.data.candidates?.[0]?.content?.parts?.[0]?.text`. -/
def googleText (d : GoogleData) : Option String :=
  (((d.candidates.bind List.head?).bind (fun c => c.content)).bind
      (fun c => c.parts)).bind (fun ps => ps.head?.bind (fun p => p.text))

/-- Pure normalisation part of `AIServiceManager.callGoogle` (the
`model` field of the result is the request model, passed through). -/
def callGoogle (d : GoogleData) (model : String) : AIResponse :=
  { content := jsOr (googleText d) "No response"
    service := "google"
    tokens := match d.usageMetadata with
      | none => JsNum.undef
      | some u => u.totalTokenCount
    model := some model }

/-- `DEFAULT_MODELS` from `aiService.ts`; `none` models the JS
`undefined` obtained when indexing with an unknown service id. -/
def DEFAULT_MODELS : String → Option String
  | "openai" => some "gpt-4o-mini"
  | "anthropic" => some "claude-3-haiku-20240307"
  | "google" => some "gemini-1.5-flash"
  | "groq" => some "llama3-8b-8192"
  | _ => none

/-- The provider-specific HTTP request that `callAIService` would
dispatch; returning a `ServiceCall` models issuing the network call. -/
inductive ServiceCall where
  | openai (prompt apiKey : String) (model : Option String)
  | anthropic (prompt apiKey : String) (model : Option String)
  | google (prompt apiKey : String) (model : Option String) (image : Option String)
  | groq (prompt apiKey : String) (model : Option String)
deriving DecidableEq, Repr

/-- Dispatch logic of `AIServiceManager.callAIService`: resolves the
model (`model || DEFAULT_MODELS[serviceId]`, so an empty or absent
override falls back to the default) and selects the provider branch;
an unknown service id throws before any request is built. -/
def callAIService (serviceId prompt apiKey : String) (model : Option String)
    (image : Option String) : Except String ServiceCall :=
  let serviceModel : Option String :=
    match model with
    | some m => if m = "" then DEFAULT_MODELS serviceId else some m
    | none => DEFAULT_MODELS serviceId
  match serviceId with
  | "openai" => Except.ok (ServiceCall.openai prompt apiKey serviceModel)
  | "anthropic" => Except.ok (ServiceCall.anthropic prompt apiKey serviceModel)
  | "google" => Except.ok (ServiceCall.google prompt apiKey serviceModel image)
  | "groq" => Except.ok (ServiceCall.groq prompt apiKey serviceModel)
  | _ => Except.error ("Unsupported AI service: " ++ serviceId)

/-! ## Role catalog and sequencer state (`GarageWorkflow.tsx`) -/

/-- Per-role entry of `ROLE_DEFINITIONS`. -/
structure RoleInfo where
  name : String
  description : String
deriving DecidableEq, Repr

/-- `ROLE_DEFINITIONS[templateId] || {}` as an ordered association
list (JS object keys enumerate in insertion order `A..E`). -/
def ROLE_DEFINITIONS : String → List (String × RoleInfo)
  | "build" =>
    [("A", ⟨"Prompt Refiner", "Refines user requirements and creates detailed specifications"⟩),
     ("B", ⟨"Backend Developer", "Creates backend code, APIs, and database structure"⟩),
     ("C", ⟨"Frontend Designer", "Builds UI/UX and frontend components"⟩),
     ("D", ⟨"Code Reviewer", "Reviews, optimizes, and fixes code issues"⟩),
     ("E", ⟨"Documentation Specialist", "Creates documentation and explanations"⟩)]
  | "research" =>
    [("A", ⟨"Research Coordinator", "Defines research scope and methodology"⟩),
     ("B", ⟨"Data Collector", "Gathers information from multiple sources"⟩),
     ("C", ⟨"Research Analyst", "Analyzes and synthesizes findings"⟩),
     ("D", ⟨"Fact Checker", "Verifies accuracy and credibility"⟩),
     ("E", ⟨"Report Writer", "Creates final comprehensive report"⟩)]
  | "math" =>
    [("A", ⟨"Problem Interpreter", "Understands and structures mathematical problems"⟩),
     ("B", ⟨"Solution Strategist", "Develops solution approaches and methods"⟩),
     ("C", ⟨"Calculator", "Performs calculations and computations"⟩),
     ("D", ⟨"Verification Specialist", "Checks accuracy and alternative methods"⟩),
     ("E", ⟨"Explainer", "Provides clear step-by-step explanations"⟩)]
  | "ideas" =>
    [("A", ⟨"Idea Coordinator", "Structures and clarifies creative concepts"⟩),
     ("B", ⟨"Creative Generator", "Brainstorms and expands ideas"⟩),
     ("C", ⟨"Feasibility Analyst", "Evaluates practicality and market potential"⟩),
     ("D", ⟨"Idea Refiner", "Polishes and improves concepts"⟩),
     ("E", ⟨"Implementation Planner", "Creates actionable next steps"⟩)]
  | _ => []

/-- The `title` field of the selected `GARAGE_OPTIONS` entry. -/
def GARAGE_TITLES : String → Option String
  | "build" => some "Create/Build App"
  | "research" => some "Research & Analysis"
  | "math" => some "Solve Math Problem"
  | "ideas" => some "Creative Ideation"
  | _ => none

/-- `roles[roleId]`: JS object indexing on the role catalog. -/
def lookupRole (roles : List (String × RoleInfo)) (roleId : String) : Option RoleInfo :=
  (roles.find? (fun p => p.1 = roleId)).map (fun p => p.2)

/-- `roleAssignments[roleId]` on the role→service-id assignment object. -/
def lookupAssoc (m : List (String × String)) (k : String) : Option String :=
  (m.find? (fun p => p.1 = k)).map (fun p => p.2)

/-- `{...prev, [roleId]: aiId}`: JS object update with one key
(replaces the existing binding in place, else appends). -/
def setAssoc (m : List (String × String)) (k v : String) : List (String × String) :=
  if (m.find? (fun p => p.1 = k)).isSome then
    m.map (fun p => if p.1 = k then (k, v) else p)
  else m ++ [(k, v)]

/-- Stage status union from `GarageWorkflow.tsx`:
`'pending' | 'processing' | 'completed' | 'user_input'`.  The spec
names the `user_input` state `awaiting_user_decision`. -/
inductive StepStatus where
  | pending
  | processing
  | completed
  | user_input
deriving DecidableEq, Repr

/-- `WorkflowStep` from `GarageWorkflow.tsx`.  `response = none` models
the absent optional field. -/
structure WorkflowStep where
  id : String
  role : String
  roleName : String
  assignedAI : Option String
  prompt : String
  response : Option String
  status : StepStatus
deriving DecidableEq, Repr

/-- The step list created by the `useEffect` (and by `resetWorkflow`):
one fresh `pending` step per role, in catalog order. -/
def initialSteps (roles : List (String × RoleInfo)) : List WorkflowStep :=
  roles.map (fun p =>
    { id := p.1, role := p.1, roleName := p.2.name, assignedAI := none,
      prompt := "", response := none, status := StepStatus.pending })

/-- The component state of `GarageWorkflow` that the sequencer reads
and writes (the `useState` cells). -/
structure WorkflowState where
  roleAssignments : List (String × String)
  workflowSteps : List WorkflowStep
  currentStep : Nat
  userPrompt : String
  workflowStarted : Bool
  additionalInput : String
  showAddMore : Bool
deriving DecidableEq, Repr

/-- The slice of a stored `Connection` the workflow reads
(`connection.apiKey`, `connection.model`). -/
structure Connection where
  apiKey : String
  model : Option String
deriving DecidableEq, Repr

/-- A `react-hot-toast` notification (the notification sink). -/
inductive Toast where
  | error (msg : String)
  | success (msg : String)
deriving DecidableEq, Repr

/-- Outcome of one sequencer operation: the new component state, the
toasts emitted, the provider calls issued as (serviceId, prompt)
pairs, and the `setTimeout`-scheduled follow-up stage run, if any
(`none` in the prompt position models a crash while rendering it). -/
structure StepResult where
  state : WorkflowState
  toasts : List Toast
  networkCalls : List (String × String)
  scheduledNext : Option (Nat × Option String)
deriving DecidableEq, Repr

/-- The sequencer's environment: the credential store (`connections`
from `AppContext`), the provider adapter
(`aiServiceManager.callAIService`, abstracted as a function from
(serviceId, prompt, apiKey, model) to a result), the role catalog and
the template title. -/
structure SeqEnv where
  connections : String → Option Connection
  adapter : String → String → String → Option String → Except String AIResponse
  roles : List (String × RoleInfo)
  title : String

/-- `prev.map((s, i) => i === idx ? f s : s)`: pointwise update of the
step at `idx`, identity elsewhere (and when `idx` is out of range). -/
def updateStep : List WorkflowStep → Nat → (WorkflowStep → WorkflowStep) → List WorkflowStep
  | [], _, _ => []
  | s :: rest, 0, f => f s :: rest
  | s :: rest, Nat.succ n, f => s :: updateStep rest n f

/-- `createRolePrompt(step, inputPrompt, stepIndex)`: for stage 0 the
template-specific framing around the literal user input; for every
later stage the input prompt is forwarded unchanged.  `none` models
the TypeError thrown when `roles[step.role]` is `undefined`. -/
def createRolePrompt (roles : List (String × RoleInfo)) (title : String)
    (step : WorkflowStep) (inputPrompt : String) (stepIndex : Nat) : Option String :=
  if stepIndex = 0 then
    match lookupRole roles step.role with
    | none => none
    | some roleContext =>
      some ("You are a " ++ roleContext.name ++ ". Your role: " ++
        roleContext.description ++ ". The overall goal is to " ++ title ++
        ". User Request: \"" ++ inputPrompt ++
        "\". Please refine and structure this request into clear objectives for the team.")
  else some inputPrompt

/-- `createNextStepPrompt(currentStep, currentResponse, nextStepIndex)`:
frames the full previous response with the next role's name and
description.  `none` models the TypeError thrown when the next step or
its role entry is missing. -/
def createNextStepPrompt (roles : List (String × RoleInfo))
    (steps : List WorkflowStep) (currentStep : WorkflowStep)
    (currentResponse : String) (nextStepIndex : Nat) : Option String :=
  match steps.get? nextStepIndex with
  | none => none
  | some nextStep =>
    match lookupRole roles nextStep.role with
    | none => none
    | some nextRole =>
      some ("You are a " ++ nextRole.name ++ ". Your role: " ++
        nextRole.description ++ ". The previous step was completed by " ++
        currentStep.roleName ++ ", who provided the following: \"" ++
        currentResponse ++ "\". Based on this, please perform your task.")

/-- A `StepResult` that leaves the state untouched, emits the given
toasts, and makes no provider call. -/
def noOp (st : WorkflowState) (toasts : List Toast) : StepResult :=
  { state := st, toasts := toasts, networkCalls := [], scheduledNext := none }

/-- `processStep(stepIndex, inputPrompt)` from `GarageWorkflow.tsx`:
guards (missing step → silent return; unassigned role / missing API
key → error toast, no state change), then marks the stage
`processing`, records the input prompt, calls the adapter with the
rendered prompt, and on success stores the content and either pauses
at stage 0 (`user_input`, show the add-more panel), schedules the next
stage, or reports completion; on failure reverts the stage to
`pending` and reports the error. -/
def processStep (env : SeqEnv) (st : WorkflowState) (stepIndex : Nat)
    (inputPrompt : String) : StepResult :=
  match st.workflowSteps.get? stepIndex with
  | none => noOp st []
  | some step =>
    match lookupAssoc st.roleAssignments step.role with
    | none => noOp st [Toast.error ("No AI assigned to role " ++ step.role)]
    | some assignedAIId =>
      if assignedAIId = "" then
        noOp st [Toast.error ("No AI assigned to role " ++ step.role)]
      else
        match env.connections assignedAIId with
        | none => noOp st [Toast.error ("API key not found for " ++ assignedAIId)]
        | some connection =>
          if connection.apiKey = "" then
            noOp st [Toast.error ("API key not found for " ++ assignedAIId)]
          else
            let st1 : WorkflowState :=
              { st with
                workflowSteps := updateStep st.workflowSteps stepIndex
                  (fun s => { s with status := StepStatus.processing, prompt := inputPrompt })
                currentStep := stepIndex }
            match createRolePrompt env.roles env.title step inputPrompt stepIndex with
            | none =>
              { state := { st1 with
                  workflowSteps := updateStep st1.workflowSteps stepIndex
                    (fun s => { s with status := StepStatus.pending }) }
                toasts := [Toast.error ("Error in " ++ step.roleName ++
                  ": Cannot read properties of undefined")]
                networkCalls := []
                scheduledNext := none }
            | some rolePrompt =>
              match env.adapter assignedAIId rolePrompt connection.apiKey connection.model with
              | Except.error msg =>
                { state := { st1 with
                    workflowSteps := updateStep st1.workflowSteps stepIndex
                      (fun s => { s with status := StepStatus.pending }) }
                  toasts := [Toast.error ("Error in " ++ step.roleName ++ ": " ++ msg)]
                  networkCalls := [(assignedAIId, rolePrompt)]
                  scheduledNext := none }
              | Except.ok response =>
                let newStatus : StepStatus :=
                  if stepIndex = 0 then StepStatus.user_input else StepStatus.completed
                let st2 : WorkflowState :=
                  { st1 with
                    workflowSteps := updateStep st1.workflowSteps stepIndex
                      (fun s => { s with status := newStatus, response := some response.content }) }
                if newStatus = StepStatus.user_input then
                  { state := { st2 with showAddMore := true }
                    toasts := []
                    networkCalls := [(assignedAIId, rolePrompt)]
                    scheduledNext := none }
                else if stepIndex < st.workflowSteps.length - 1 then
                  { state := st2
                    toasts := []
                    networkCalls := [(assignedAIId, rolePrompt)]
                    scheduledNext := some (stepIndex + 1,
                      createNextStepPrompt env.roles st.workflowSteps step
                        response.content (stepIndex + 1)) }
                else
                  { state := st2
                    toasts := [Toast.success "Workflow completed successfully!"]
                    networkCalls := [(assignedAIId, rolePrompt)]
                    scheduledNext := none }

/-- `validateSetup()`: at least two roles carry a truthy assignment and
the task prompt is non-empty after trimming. -/
def validateSetup (st : WorkflowState) : Bool :=
  decide (2 ≤ (st.roleAssignments.filter (fun p => p.2 ≠ "")).length) &&
    decide (jsTrim st.userPrompt ≠ "")

/-- `startWorkflow()`: validation-gated entry point; on success marks
the run started and runs stage 0 with the raw user prompt. -/
def startWorkflow (env : SeqEnv) (st : WorkflowState) : StepResult :=
  if validateSetup st then
    processStep env { st with workflowStarted := true } 0 st.userPrompt
  else
    noOp st [Toast.error "Please assign at least 2 AIs and enter a task description!"]

/-- `workflowSteps.find(s => s.id === 'A')?.prompt || userPrompt`. -/
def step0Prompt (st : WorkflowState) : String :=
  jsOr ((st.workflowSteps.find? (fun s => s.id = "A")).map (fun s => s.prompt)) st.userPrompt

/-- `handleAddMore()`: rejects an empty (after trimming) refinement,
otherwise appends the refinement to stage 0's current prompt under the
literal "Additional requirements:" label and re-runs stage 0 with the
combined prompt (clearing the input box and the add-more panel
first). -/
def handleAddMore (env : SeqEnv) (st : WorkflowState) : StepResult :=
  if jsTrim st.additionalInput = "" then
    noOp st [Toast.error "Please enter additional requirements!"]
  else
    let combinedPrompt :=
      step0Prompt st ++ "\n\nAdditional requirements: " ++ st.additionalInput
    processStep env { st with additionalInput := "", showAddMore := false } 0 combinedPrompt

/-- `resetWorkflow()`: rebuilds the pristine component state — run not
started, stage pointer at 0, prompts and the refinement box empty,
role assignments cleared, and a fresh `pending` step list. -/
def resetWorkflow (roles : List (String × RoleInfo)) (_st : WorkflowState) : WorkflowState :=
  { roleAssignments := []
    workflowSteps := initialSteps roles
    currentStep := 0
    userPrompt := ""
    workflowStarted := false
    additionalInput := ""
    showAddMore := false }

/-! ## Helper lemmas -/

/-- `t` occurs verbatim (contiguously, untruncated) inside `s`. -/
def containsStr (s t : String) : Prop :=
  ∃ pre post, s = pre ++ (t ++ post)

theorem containsStr_intro (pre t post : String) : containsStr (pre ++ (t ++ post)) t :=
  ⟨pre, post, rfl⟩

theorem jsOr_ne_empty (o : Option String) : jsOr o "No response" ≠ "" := by
  cases o with
  | none => simp [jsOr]
  | some s =>
    by_cases h : s = "" <;> simp [jsOr, h]

theorem jsOr_of_some (o : Option String) (t : String) (h : o = some t) (ht : t ≠ "") :
    jsOr o "No response" = t := by
  subst h; simp [jsOr, ht]

theorem jsOr_of_blank (o : Option String) (h : o = none ∨ o = some "") :
    jsOr o "No response" = "No response" := by
  rcases h with h | h <;> subst h <;> simp [jsOr]

theorem updateStep_get?_self (l : List WorkflowStep) (i : Nat) (f : WorkflowStep → WorkflowStep) :
    (updateStep l i f).get? i = (l.get? i).map f := by
  induction l generalizing i with
  | nil => cases i <;> rfl
  | cons a t ih =>
    cases i with
    | zero => rfl
    | succ n =>
      simp only [updateStep, List.get?_cons_succ]
      exact ih n

/-- Joint success specification of `processStep`: when the stage
exists, has a truthy assignment backed by a stored API key, the prompt
renders, and the adapter succeeds, the stage ends with the rendered
input recorded, the response stored (overwriting any previous one),
status `user_input` exactly at stage 0 and `completed` otherwise;
exactly one provider call is made, with the rendered prompt; a next
stage is scheduled only for an intermediate stage `i > 0`. -/
theorem processStep_ok_spec (env : SeqEnv) (st : WorkflowState) (i : Nat) (p : String)
    (step : WorkflowStep) (aiId : String) (conn : Connection) (rp : String) (resp : AIResponse)
    (hstep : st.workflowSteps.get? i = some step)
    (hasg : lookupAssoc st.roleAssignments step.role = some aiId)
    (haiId : aiId ≠ "")
    (hconn : env.connections aiId = some conn)
    (hkey : conn.apiKey ≠ "")
    (hrp : createRolePrompt env.roles env.title step p i = some rp)
    (hok : env.adapter aiId rp conn.apiKey conn.model = Except.ok resp) :
    (processStep env st i p).state.workflowSteps.get? i =
      some { step with
        status := if i = 0 then StepStatus.user_input else StepStatus.completed
        prompt := p
        response := some resp.content } ∧
    (processStep env st i p).networkCalls = [(aiId, rp)] ∧
    (processStep env st i p).toasts =
      (if i = 0 then []
       else if i < st.workflowSteps.length - 1 then []
       else [Toast.success "Workflow completed successfully!"]) ∧
    (processStep env st i p).scheduledNext =
      (if i = 0 then none
       else if i < st.workflowSteps.length - 1 then
         some (i + 1, createNextStepPrompt env.roles st.workflowSteps step resp.content (i + 1))
       else none) := by
  by_cases hi : i = 0
  · subst hi
    simp only [processStep, hstep, hasg, haiId, hconn, hkey, hrp, hok, if_neg, ite_false,
      if_true, reduceIte]
    refine ⟨?_, by trivial, by trivial, by trivial⟩
    rw [updateStep_get?_self, updateStep_get?_self, hstep]
    rfl
  · by_cases hlt : i < st.workflowSteps.length - 1
    · simp only [processStep, hstep, hasg, haiId, hconn, hkey, hrp, hok, hi, hlt, if_neg,
        ite_false, ite_true, reduceIte, reduceCtorEq]
      refine ⟨?_, by trivial, by trivial, by trivial⟩
      rw [updateStep_get?_self, updateStep_get?_self, hstep]
      simp [hi]
    · simp only [processStep, hstep, hasg, haiId, hconn, hkey, hrp, hok, hi, hlt, if_neg,
        ite_false, ite_true, reduceIte, reduceCtorEq]
      refine ⟨?_, by trivial, by trivial, by trivial⟩
      rw [updateStep_get?_self, updateStep_get?_self, hstep]
      simp [hi]

/-- Joint failure specification of `processStep`: when the adapter
errors, the stage reverts to `pending` (keeping the recorded input
prompt), the failure is reported as an error toast naming the role,
exactly one provider call was attempted, and nothing is scheduled. -/
theorem processStep_err_spec (env : SeqEnv) (st : WorkflowState) (i : Nat) (p : String)
    (step : WorkflowStep) (aiId : String) (conn : Connection) (rp msg : String)
    (hstep : st.workflowSteps.get? i = some step)
    (hasg : lookupAssoc st.roleAssignments step.role = some aiId)
    (haiId : aiId ≠ "")
    (hconn : env.connections aiId = some conn)
    (hkey : conn.apiKey ≠ "")
    (hrp : createRolePrompt env.roles env.title step p i = some rp)
    (herr : env.adapter aiId rp conn.apiKey conn.model = Except.error msg) :
    (processStep env st i p).state.workflowSteps.get? i =
      some { step with status := StepStatus.pending, prompt := p } ∧
    (processStep env st i p).toasts =
      [Toast.error ("Error in " ++ step.roleName ++ ": " ++ msg)] ∧
    (processStep env st i p).networkCalls = [(aiId, rp)] ∧
    (processStep env st i p).scheduledNext = none := by
  simp only [processStep, hstep, hasg, haiId, hconn, hkey, hrp, herr, if_neg, ite_false,
    reduceIte]
  refine ⟨?_, by trivial, by trivial, by trivial⟩
  rw [updateStep_get?_self, updateStep_get?_self, hstep]
  rfl

/-! ## Concrete fixtures for witnesses -/

/-- The "build" template's role catalog. -/
def buildRoles : List (String × RoleInfo) := ROLE_DEFINITIONS "build"

/-- A credential store with two connected services. -/
def demoConnections : String → Option Connection :=
  fun sid =>
    if sid = "openai" then some { apiKey := "sk-demo", model := some "gpt-4o-mini" }
    else if sid = "anthropic" then some { apiKey := "ak-demo", model := none }
    else none

/-- Adapter result used by the successful-run fixtures. -/
def demoResponse : AIResponse :=
  { content := "STRUCTURED OBJECTIVES", service := "demo", tokens := JsNum.undef, model := none }

/-- An adapter that always succeeds with `demoResponse`. -/
def okAdapter : String → String → String → Option String → Except String AIResponse :=
  fun _ _ _ _ => Except.ok demoResponse

/-- An adapter that always fails (e.g. an invalid credential). -/
def failAdapter : String → String → String → Option String → Except String AIResponse :=
  fun _ _ _ _ => Except.error "Invalid credential"

def demoEnvOk : SeqEnv :=
  { connections := demoConnections, adapter := okAdapter,
    roles := buildRoles, title := "Create/Build App" }

def demoEnvFail : SeqEnv :=
  { connections := demoConnections, adapter := failAdapter,
    roles := buildRoles, title := "Create/Build App" }

/-- Fresh step records of the "build" template. -/
def stepA : WorkflowStep :=
  { id := "A", role := "A", roleName := "Prompt Refiner", assignedAI := none,
    prompt := "", response := none, status := StepStatus.pending }

def stepB : WorkflowStep :=
  { id := "B", role := "B", roleName := "Backend Developer", assignedAI := none,
    prompt := "", response := none, status := StepStatus.pending }

/-- A configured "build" run: roles A and B assigned, prompt entered. -/
def demoState : WorkflowState :=
  { roleAssignments := [("A", "openai"), ("B", "anthropic")]
    workflowSteps := initialSteps buildRoles
    currentStep := 0
    userPrompt := "build a todo app"
    workflowStarted := false
    additionalInput := ""
    showAddMore := false }

/-- Same run but with only one assigned role. -/
def demoStateOneRole : WorkflowState :=
  { demoState with roleAssignments := [("A", "openai")] }

/-- Same run but with no role assignments at all. -/
def demoStateUnassigned : WorkflowState :=
  { demoState with roleAssignments := [] }

/-- The stage-0 prompt `createRolePrompt` renders for `demoState`. -/
def demoRolePrompt : String :=
  "You are a Prompt Refiner. Your role: Refines user requirements and creates detailed specifications. The overall goal is to Create/Build App. User Request: \"build a todo app\". Please refine and structure this request into clear objectives for the team."

/-! ## Claims -/

/-- C1: for every template and every successful run of a stage,
stage 0 ends in `user_input` (the spec's `awaiting_user_decision`),
never `completed`, while every stage with index greater than 0 that
succeeds ends in `completed`. -/
theorem c1_stage_status (env : SeqEnv) (st : WorkflowState) (i : Nat) (p : String)
    (step : WorkflowStep) (aiId : String) (conn : Connection) (rp : String) (resp : AIResponse)
    (hstep : st.workflowSteps.get? i = some step)
    (hasg : lookupAssoc st.roleAssignments step.role = some aiId)
    (haiId : aiId ≠ "")
    (hconn : env.connections aiId = some conn)
    (hkey : conn.apiKey ≠ "")
    (hrp : createRolePrompt env.roles env.title step p i = some rp)
    (hok : env.adapter aiId rp conn.apiKey conn.model = Except.ok resp) :
    ((processStep env st i p).state.workflowSteps.get? i).map (fun s => s.status) =
      some (if i = 0 then StepStatus.user_input else StepStatus.completed) ∧
    StepStatus.user_input ≠ StepStatus.completed := by
  have h := processStep_ok_spec env st i p step aiId conn rp resp
    hstep hasg haiId hconn hkey hrp hok
  refine ⟨?_, by decide⟩
  rw [h.1]
  rfl

/-- C1 witness: a successful stage-0 run of the "build" template pauses
in `user_input`, and a successful stage-1 run completes. -/
theorem c1_stage_status_witness :
    (((processStep demoEnvOk demoState 0 "build a todo app").state.workflowSteps.get? 0).map
        (fun s => s.status) =
      some (if 0 = 0 then StepStatus.user_input else StepStatus.completed) ∧
      StepStatus.user_input ≠ StepStatus.completed) ∧
    (((processStep demoEnvOk demoState 1 "carry on").state.workflowSteps.get? 1).map
        (fun s => s.status) =
      some (if 1 = 0 then StepStatus.user_input else StepStatus.completed) ∧
      StepStatus.user_input ≠ StepStatus.completed) :=
  ⟨c1_stage_status demoEnvOk demoState 0 "build a todo app" stepA "openai"
      ⟨"sk-demo", some "gpt-4o-mini"⟩ demoRolePrompt demoResponse
      rfl rfl (by decide) rfl (by decide) rfl rfl,
    c1_stage_status demoEnvOk demoState 1 "carry on" stepB "anthropic"
      ⟨"ak-demo", none⟩ "carry on" demoResponse
      rfl rfl (by decide) rfl (by decide) rfl rfl⟩

/-- C5: for every stage, when the provider call fails the stage reverts
to `pending` (not `processing` or `completed`), the failure is
reported through the notification sink, and the sequencer neither
retries (exactly one call was made) nor advances (nothing is
scheduled). -/
theorem c5_provider_failure (env : SeqEnv) (st : WorkflowState) (i : Nat) (p : String)
    (step : WorkflowStep) (aiId : String) (conn : Connection) (rp msg : String)
    (hstep : st.workflowSteps.get? i = some step)
    (hasg : lookupAssoc st.roleAssignments step.role = some aiId)
    (haiId : aiId ≠ "")
    (hconn : env.connections aiId = some conn)
    (hkey : conn.apiKey ≠ "")
    (hrp : createRolePrompt env.roles env.title step p i = some rp)
    (herr : env.adapter aiId rp conn.apiKey conn.model = Except.error msg) :
    ((processStep env st i p).state.workflowSteps.get? i).map (fun s => s.status) =
      some StepStatus.pending ∧
    (processStep env st i p).toasts =
      [Toast.error ("Error in " ++ step.roleName ++ ": " ++ msg)] ∧
    (processStep env st i p).networkCalls = [(aiId, rp)] ∧
    (processStep env st i p).scheduledNext = none := by
  have h := processStep_err_spec env st i p step aiId conn rp msg
    hstep hasg haiId hconn hkey hrp herr
  exact ⟨by rw [h.1]; rfl, h.2.1, h.2.2.1, h.2.2.2⟩

/-- C5 witness: a failing provider call on stage 0 of the "build"
template reverts the stage to `pending`, reports the error, and
schedules nothing. -/
theorem c5_provider_failure_witness :
    ((processStep demoEnvFail demoState 0 "build a todo app").state.workflowSteps.get? 0).map
        (fun s => s.status) = some StepStatus.pending ∧
    (processStep demoEnvFail demoState 0 "build a todo app").toasts =
      [Toast.error ("Error in " ++ "Prompt Refiner" ++ ": " ++ "Invalid credential")] ∧
    (processStep demoEnvFail demoState 0 "build a todo app").networkCalls =
      [("openai", demoRolePrompt)] ∧
    (processStep demoEnvFail demoState 0 "build a todo app").scheduledNext = none :=
  c5_provider_failure demoEnvFail demoState 0 "build a todo app" stepA "openai"
    ⟨"sk-demo", some "gpt-4o-mini"⟩ demoRolePrompt "Invalid credential"
    rfl rfl (by decide) rfl (by decide) rfl rfl

/-- C2: `startWorkflow` fails with the validation toast and performs no
state change (no stage runs, no provider call) whenever fewer than two
roles carry a truthy assignment or the prompt is empty after trimming;
when both preconditions hold it marks the run started and runs stage 0
with the raw user prompt. -/
theorem c2_start_preconditions (env : SeqEnv) (st : WorkflowState) :
    ((st.roleAssignments.filter (fun a => a.2 ≠ "")).length < 2 ∨ jsTrim st.userPrompt = "" →
      startWorkflow env st =
        noOp st [Toast.error "Please assign at least 2 AIs and enter a task description!"]) ∧
    (2 ≤ (st.roleAssignments.filter (fun a => a.2 ≠ "")).length ∧ jsTrim st.userPrompt ≠ "" →
      startWorkflow env st =
        processStep env { st with workflowStarted := true } 0 st.userPrompt) := by
  constructor
  · intro h
    have hv : validateSetup st = false := by
      simp only [validateSetup, Bool.and_eq_false_iff, decide_eq_false_iff_not, not_le]
      rcases h with h | h
      · exact Or.inl h
      · exact Or.inr (by simp [h])
    simp [startWorkflow, hv]
  · rintro ⟨h1, h2⟩
    have hv : validateSetup st = true := by
      simp only [validateSetup, Bool.and_eq_true, decide_eq_true_eq]
      exact ⟨h1, h2⟩
    simp [startWorkflow, hv]

/-- C2 witness: one assigned role is rejected with no state change even
with a non-empty prompt, and two assigned roles with a non-empty
prompt start the run on stage 0 with the raw prompt. -/
theorem c2_start_preconditions_witness :
    (startWorkflow demoEnvOk demoStateOneRole =
      noOp demoStateOneRole
        [Toast.error "Please assign at least 2 AIs and enter a task description!"]) ∧
    (startWorkflow demoEnvOk demoState =
      processStep demoEnvOk { demoState with workflowStarted := true } 0
        demoState.userPrompt) :=
  ⟨(c2_start_preconditions demoEnvOk demoStateOneRole).1 (Or.inl (by decide)),
    (c2_start_preconditions demoEnvOk demoState).2 ⟨by decide, by decide⟩⟩

/-- C6 counterexample: with no stage at index 7, `processStep` returns
with NO error notification (empty toast list), contradicting the claim
that a missing stage is reported as an `AssignmentError` rather than
silently swallowed.  State is unchanged and no call is made, as the
claim also says. -/
theorem c6_missing_stage_counterexample :
    demoState.workflowSteps.get? 7 = none ∧
    processStep demoEnvOk demoState 7 "extra work" = noOp demoState [] ∧
    (processStep demoEnvOk demoState 7 "extra work").toasts = [] :=
  ⟨rfl, rfl, rfl⟩

/-- C6 (amended): when no stage exists at the index, `processStep`
leaves all state unchanged and makes no provider call but returns
silently, reporting no error; when the stage exists but its role has
no truthy provider assignment, it reports the assignment error toast
and leaves all state unchanged with no provider call. -/
theorem c6_precondition_guards (env : SeqEnv) (st : WorkflowState) (i : Nat) (p : String) :
    (st.workflowSteps.get? i = none → processStep env st i p = noOp st []) ∧
    (∀ step, st.workflowSteps.get? i = some step →
      (lookupAssoc st.roleAssignments step.role = none ∨
        lookupAssoc st.roleAssignments step.role = some "") →
      processStep env st i p =
        noOp st [Toast.error ("No AI assigned to role " ++ step.role)]) := by
  constructor
  · intro h
    simp only [processStep, h]
  · intro step hstep hasg
    rcases hasg with h | h <;> simp only [processStep, hstep, h, reduceIte]

/-- C6 witness for the amended claim: index 7 is a silent no-op; an
existing stage with no assignment yields the assignment-error toast
and no state change. -/
theorem c6_precondition_guards_witness :
    (processStep demoEnvOk demoState 7 "p" = noOp demoState []) ∧
    (processStep demoEnvOk demoStateUnassigned 0 "p" =
      noOp demoStateUnassigned [Toast.error ("No AI assigned to role " ++ "A")]) :=
  ⟨(c6_precondition_guards demoEnvOk demoState 7 "p").1 rfl,
    (c6_precondition_guards demoEnvOk demoStateUnassigned 0 "p").2 stepA rfl (Or.inl rfl)⟩

/-- C7: `resetWorkflow` returns every stage to `pending` with an empty
prompt and no output, clears the role assignment map and the started
flag, and is idempotent. -/
theorem c7_reset_idempotent (roles : List (String × RoleInfo)) (st : WorkflowState) :
    (resetWorkflow roles st).workflowStarted = false ∧
    (resetWorkflow roles st).roleAssignments = [] ∧
    (∀ s ∈ (resetWorkflow roles st).workflowSteps,
      s.status = StepStatus.pending ∧ s.prompt = "" ∧ s.response = none) ∧
    resetWorkflow roles (resetWorkflow roles st) = resetWorkflow roles st := by
  refine ⟨rfl, rfl, ?_, rfl⟩
  intro s hs
  simp only [resetWorkflow, initialSteps, List.mem_map] at hs
  obtain ⟨q, _, rfl⟩ := hs
  exact ⟨rfl, rfl, rfl⟩

/-- C7 witness: resetting the configured "build" run clears the flags
and assignments, leaves the first step pending and empty, and a second
reset changes nothing. -/
theorem c7_reset_idempotent_witness :
    (resetWorkflow buildRoles demoState).workflowStarted = false ∧
    (resetWorkflow buildRoles demoState).roleAssignments = [] ∧
    (stepA.status = StepStatus.pending ∧ stepA.prompt = "" ∧ stepA.response = none) ∧
    resetWorkflow buildRoles (resetWorkflow buildRoles demoState) =
      resetWorkflow buildRoles demoState :=
  ⟨(c7_reset_idempotent buildRoles demoState).1,
    (c7_reset_idempotent buildRoles demoState).2.1,
    (c7_reset_idempotent buildRoles demoState).2.2.1 stepA (by decide),
    (c7_reset_idempotent buildRoles demoState).2.2.2⟩

/-- C3: the stage-0 rendered prompt embeds the role's name and
description, the template title, and the literal user input; for any
stage `i > 0` the rendered prompt is exactly the input forwarded to
it, and the prompt built for the next stage embeds the next role's
name and description and the full verbatim text of the previous
stage's output (no summarization or truncation). -/
theorem c3_prompt_rendering (roles : List (String × RoleInfo)) (title : String)
    (step cur : WorkflowStep) (p resp : String) (i j : Nat)
    (steps : List WorkflowStep) :
    (∀ info rp, lookupRole roles step.role = some info →
      createRolePrompt roles title step p 0 = some rp →
      containsStr rp info.name ∧ containsStr rp info.description ∧
        containsStr rp title ∧ containsStr rp p) ∧
    (i ≠ 0 → createRolePrompt roles title step p i = some p) ∧
    (∀ nextStep nextInfo np, steps.get? j = some nextStep →
      lookupRole roles nextStep.role = some nextInfo →
      createNextStepPrompt roles steps cur resp j = some np →
      containsStr np nextInfo.name ∧ containsStr np nextInfo.description ∧
        containsStr np resp) := by
  refine ⟨?_, ?_, ?_⟩
  · intro info rp hinfo hrp
    simp only [createRolePrompt, hinfo, reduceIte, Option.some.injEq] at hrp
    subst hrp
    refine ⟨⟨"You are a ", ". Your role: " ++ info.description ++
        ". The overall goal is to " ++ title ++ ". User Request: \"" ++ p ++
        "\". Please refine and structure this request into clear objectives for the team.",
        by simp [String.append_assoc]⟩,
      ⟨"You are a " ++ info.name ++ ". Your role: ",
        ". The overall goal is to " ++ title ++ ". User Request: \"" ++ p ++
        "\". Please refine and structure this request into clear objectives for the team.",
        by simp [String.append_assoc]⟩,
      ⟨"You are a " ++ info.name ++ ". Your role: " ++ info.description ++
        ". The overall goal is to ",
        ". User Request: \"" ++ p ++
        "\". Please refine and structure this request into clear objectives for the team.",
        by simp [String.append_assoc]⟩,
      ⟨"You are a " ++ info.name ++ ". Your role: " ++ info.description ++
        ". The overall goal is to " ++ title ++ ". User Request: \"",
        "\". Please refine and structure this request into clear objectives for the team.",
        by simp [String.append_assoc]⟩⟩
  · intro hi
    simp [createRolePrompt, hi]
  · intro nextStep nextInfo np hnext hinfo hnp
    simp only [createNextStepPrompt, hnext, hinfo, Option.some.injEq] at hnp
    subst hnp
    refine ⟨⟨"You are a ", ". Your role: " ++ nextInfo.description ++
        ". The previous step was completed by " ++ cur.roleName ++
        ", who provided the following: \"" ++ resp ++
        "\". Based on this, please perform your task.",
        by simp [String.append_assoc]⟩,
      ⟨"You are a " ++ nextInfo.name ++ ". Your role: ",
        ". The previous step was completed by " ++ cur.roleName ++
        ", who provided the following: \"" ++ resp ++
        "\". Based on this, please perform your task.",
        by simp [String.append_assoc]⟩,
      ⟨"You are a " ++ nextInfo.name ++ ". Your role: " ++ nextInfo.description ++
        ". The previous step was completed by " ++ cur.roleName ++
        ", who provided the following: \"",
        "\". Based on this, please perform your task.",
        by simp [String.append_assoc]⟩⟩

/-- The prompt `createNextStepPrompt` builds for stage 1 of the "build"
template when stage 0 (Prompt Refiner) produced "OUTPUT". -/
def demoNextPrompt : String :=
  "You are a Backend Developer. Your role: Creates backend code, APIs, and database structure. The previous step was completed by Prompt Refiner, who provided the following: \"OUTPUT\". Based on this, please perform your task."

/-- C3 witness: concrete renderings for the "build" template embed the
role name, role description, template title, literal user input, and
the full previous output. -/
theorem c3_prompt_rendering_witness :
    (containsStr demoRolePrompt "Prompt Refiner" ∧
      containsStr demoRolePrompt "Refines user requirements and creates detailed specifications" ∧
      containsStr demoRolePrompt "Create/Build App" ∧
      containsStr demoRolePrompt "build a todo app") ∧
    createRolePrompt buildRoles "Create/Build App" stepA "build a todo app" 1 =
      some "build a todo app" ∧
    (containsStr demoNextPrompt "Backend Developer" ∧
      containsStr demoNextPrompt "Creates backend code, APIs, and database structure" ∧
      containsStr demoNextPrompt "OUTPUT") := by
  have h := c3_prompt_rendering buildRoles "Create/Build App" stepA stepA
    "build a todo app" "OUTPUT" 1 1 (initialSteps buildRoles)
  exact ⟨h.1 ⟨"Prompt Refiner", "Refines user requirements and creates detailed specifications"⟩
      demoRolePrompt rfl rfl,
    h.2.1 (by decide),
    h.2.2 stepB ⟨"Backend Developer", "Creates backend code, APIs, and database structure"⟩
      demoNextPrompt rfl rfl rfl⟩

/-- C4: `handleAddMore` fails with the validation toast and no state
change when the refinement text is empty after trimming; otherwise it
appends the raw refinement text to stage 0's current prompt under the
literal "Additional requirements:" label after a paragraph break and
re-runs stage 0 with the combined text; re-running stage 0 overwrites
(never concatenates) the stored stage-0 response. -/
theorem c4_submit_refinement (env : SeqEnv) (st : WorkflowState) :
    (jsTrim st.additionalInput = "" →
      handleAddMore env st = noOp st [Toast.error "Please enter additional requirements!"]) ∧
    (jsTrim st.additionalInput ≠ "" →
      handleAddMore env st =
        processStep env { st with additionalInput := "", showAddMore := false } 0
          (step0Prompt st ++ "\n\nAdditional requirements: " ++ st.additionalInput)) ∧
    (∀ p step aiId conn rp resp,
      st.workflowSteps.get? 0 = some step →
      lookupAssoc st.roleAssignments step.role = some aiId →
      aiId ≠ "" →
      env.connections aiId = some conn →
      conn.apiKey ≠ "" →
      createRolePrompt env.roles env.title step p 0 = some rp →
      env.adapter aiId rp conn.apiKey conn.model = Except.ok resp →
      ((processStep env st 0 p).state.workflowSteps.get? 0).map (fun s => s.response) =
        some (some resp.content)) := by
  refine ⟨?_, ?_, ?_⟩
  · intro h
    simp only [handleAddMore, h, reduceIte]
  · intro h
    simp only [handleAddMore, if_neg h]
  · intro p step aiId conn rp resp hstep hasg haiId hconn hkey hrp hok
    have hspec := processStep_ok_spec env st 0 p step aiId conn rp resp
      hstep hasg haiId hconn hkey hrp hok
    rw [hspec.1]
    rfl

/-- Stage 0 after a first successful run, holding its original prompt
and an old response, awaiting the user's decision. -/
def stepA_awaiting : WorkflowStep :=
  { id := "A", role := "A", roleName := "Prompt Refiner", assignedAI := none,
    prompt := "build a todo app", response := some "OLD OBJECTIVES",
    status := StepStatus.user_input }

/-- A run paused at stage 0 with refinement text entered. -/
def demoStateAwaiting : WorkflowState :=
  { roleAssignments := [("A", "openai"), ("B", "anthropic")]
    workflowSteps := [stepA_awaiting, stepB]
    currentStep := 0
    userPrompt := "build a todo app"
    workflowStarted := true
    additionalInput := "add dark mode"
    showAddMore := true }

/-- C4 witness: an empty refinement is rejected with no state change; a
non-empty one re-runs stage 0 on the combined prompt; and a re-run
overwrites the stored stage-0 response with the fresh adapter
content. -/
theorem c4_submit_refinement_witness :
    (handleAddMore demoEnvOk demoState =
      noOp demoState [Toast.error "Please enter additional requirements!"]) ∧
    (handleAddMore demoEnvOk demoStateAwaiting =
      processStep demoEnvOk
        { demoStateAwaiting with additionalInput := "", showAddMore := false } 0
        (step0Prompt demoStateAwaiting ++ "\n\nAdditional requirements: " ++
          demoStateAwaiting.additionalInput)) ∧
    ((processStep demoEnvOk demoStateAwaiting 0 "NEW COMBINED").state.workflowSteps.get? 0).map
        (fun s => s.response) = some (some demoResponse.content) :=
  ⟨(c4_submit_refinement demoEnvOk demoState).1 (by decide),
    (c4_submit_refinement demoEnvOk demoStateAwaiting).2.1 (by decide),
    (c4_submit_refinement demoEnvOk demoStateAwaiting).2.2 "NEW COMBINED" stepA_awaiting
      "openai" ⟨"sk-demo", some "gpt-4o-mini"⟩
      "You are a Prompt Refiner. Your role: Refines user requirements and creates detailed specifications. The overall goal is to Create/Build App. User Request: \"NEW COMBINED\". Please refine and structure this request into clear objectives for the team."
      demoResponse rfl rfl (by decide) rfl (by decide) rfl rfl⟩

/-- An Anthropic-style response that reports usage. -/
def anthWithUsage : AnthropicData :=
  { content := [⟨some "Hello from the model"⟩]
    usage := some ⟨JsNum.num 12, JsNum.num 34⟩
    model := some "claude-3-haiku-20240307" }

/-- An Anthropic-style response with no `usage` object at all. -/
def anthNoUsage : AnthropicData :=
  { content := [⟨some "Hello from the model"⟩]
    usage := none
    model := some "claude-3-haiku-20240307" }

/-- C8: when the Anthropic-style provider reports usage, the normalized
token field is the sum of `input_tokens` and `output_tokens`; but when
the provider reports no usage, the code computes
`undefined + undefined`, which is `NaN` — an invalid number — rather
than leaving the optional field absent (`undefined`), contradicting
the claim's second half. -/
theorem c8_anthropic_tokens :
    (callAnthropic anthWithUsage).tokens = JsNum.num (12 + 34) ∧
    (callAnthropic anthNoUsage).tokens = JsNum.nan ∧
    JsNum.nan ≠ JsNum.undef :=
  ⟨rfl, rfl, by decide⟩

/-- C9: for every well-formed response of each of the four providers,
the normalized content is never the empty string; when the payload's
text is present and non-empty it is returned verbatim, and when the
payload carries no text (absent or empty) the literal fallback
"No response" is returned instead of an error. -/
theorem c9_adapter_content (dO dQ : OpenAIData) (dA : AnthropicData) (dG : GoogleData)
    (m : String) :
    ((callOpenAI dO).content ≠ "" ∧
      (∀ t, openAIText dO = some t → t ≠ "" → (callOpenAI dO).content = t) ∧
      (openAIText dO = none ∨ openAIText dO = some "" →
        (callOpenAI dO).content = "No response")) ∧
    ((callGroq dQ).content ≠ "" ∧
      (∀ t, openAIText dQ = some t → t ≠ "" → (callGroq dQ).content = t) ∧
      (openAIText dQ = none ∨ openAIText dQ = some "" →
        (callGroq dQ).content = "No response")) ∧
    ((callAnthropic dA).content ≠ "" ∧
      (∀ t, anthropicText dA = some t → t ≠ "" → (callAnthropic dA).content = t) ∧
      (anthropicText dA = none ∨ anthropicText dA = some "" →
        (callAnthropic dA).content = "No response")) ∧
    ((callGoogle dG m).content ≠ "" ∧
      (∀ t, googleText dG = some t → t ≠ "" → (callGoogle dG m).content = t) ∧
      (googleText dG = none ∨ googleText dG = some "" →
        (callGoogle dG m).content = "No response")) :=
  ⟨⟨jsOr_ne_empty _, fun t h ht => jsOr_of_some _ t h ht, fun h => jsOr_of_blank _ h⟩,
    ⟨jsOr_ne_empty _, fun t h ht => jsOr_of_some _ t h ht, fun h => jsOr_of_blank _ h⟩,
    ⟨jsOr_ne_empty _, fun t h ht => jsOr_of_some _ t h ht, fun h => jsOr_of_blank _ h⟩,
    ⟨jsOr_ne_empty _, fun t h ht => jsOr_of_some _ t h ht, fun h => jsOr_of_blank _ h⟩⟩

/-- An OpenAI-style payload with text. -/
def openAIWithText : OpenAIData :=
  { choices := [⟨some ⟨some "hi there"⟩⟩], usage := none, model := some "gpt-4o-mini" }

/-- A Groq (OpenAI-shape) payload with no choices at all. -/
def groqNoText : OpenAIData :=
  { choices := [], usage := none, model := none }

/-- An Anthropic payload whose first content item has empty text. -/
def anthEmptyText : AnthropicData :=
  { content := [⟨some ""⟩], usage := none, model := none }

/-- A Google payload with text nested in the candidate tree. -/
def googleWithText : GoogleData :=
  { candidates := some [⟨some ⟨some [⟨some "gemini says"⟩]⟩⟩], usageMetadata := none }

/-- C9 witness: verbatim text passes through for OpenAI and Google
payloads with text; empty-choice Groq and empty-text Anthropic
payloads yield the literal "No response" fallback. -/
theorem c9_adapter_content_witness :
    (callOpenAI openAIWithText).content = "hi there" ∧
    (callGroq groqNoText).content = "No response" ∧
    (callAnthropic anthEmptyText).content = "No response" ∧
    (callGoogle googleWithText "gemini-1.5-flash").content = "gemini says" := by
  have h := c9_adapter_content openAIWithText groqNoText anthEmptyText googleWithText
    "gemini-1.5-flash"
  exact ⟨h.1.2.1 "hi there" rfl (by decide),
    h.2.1.2.2 (Or.inl rfl),
    h.2.2.1.2.2 (Or.inr rfl),
    h.2.2.2.2.1 "gemini says" rfl (by decide)⟩

/-- C10: for every service identifier outside the four supported
providers, `callAIService` throws the "Unsupported AI service" error
naming the service, so no provider request is ever built or issued. -/
theorem c10_unsupported_service (serviceId prompt apiKey : String)
    (model image : Option String)
    (h : serviceId ∉ ["openai", "anthropic", "google", "groq"]) :
    callAIService serviceId prompt apiKey model image =
      Except.error ("Unsupported AI service: " ++ serviceId) := by
  simp only [List.mem_cons, List.mem_singleton, not_or] at h
  unfold callAIService
  split <;> simp_all

/-- C10 witness: the unknown id "mistral" is rejected with the error
naming it. -/
theorem c10_unsupported_service_witness :
    callAIService "mistral" "Hello" "sk-demo" none none =
      Except.error ("Unsupported AI service: " ++ "mistral") :=
  c10_unsupported_service "mistral" "Hello" "sk-demo" none none (by decide)
